import Mathlib

/-!
Shallow embedding of `src/devtools/version.py` (the version-resolution
engine of the devtools repository), together with theorems settling the
frozen claims about it.

Python-level conventions used throughout the embedding:
* machine strings are `String` / `List Char`;
* Python `int` results are `Nat` (every integer handled by the code is a
  non-negative count or version component);
* code that can raise is modelled in `Except PyError _`, where `PyError`
  names the Python exception class that would be raised.
-/

/-- The Python exceptions that the embedded code can raise.
`valueError` covers both the explicit `raise ValueError(...)` statements
and nothing else; `unboundLocal` is `UnboundLocalError` (reading a local
variable that was never assigned); `attributeError` is `AttributeError`
(reading an attribute an object does not have); `typeError` is
`TypeError` (calling `Version(...)` with missing required arguments). -/
inductive PyError
  | valueError
  | unboundLocal
  | attributeError
  | typeError
deriving DecidableEq, Repr

/-- The hand-rolled `Version` class of `src/devtools/version.py` (lines
175 to 256): `major`, `minor`, `patch` numbers, an optional prerelease
pair `(tag, counter)` stored in `pre`, and optional build `metadata`.
The constructor defaults `pre` and `metadata` to `None`. -/
structure Version where
  major : Nat
  minor : Nat
  patch : Nat
  pre : Option (String × Nat) := none
  metadata : Option String := none
deriving DecidableEq, Repr

/-- Python string `<`: lexicographic comparison of code points. -/
def pyStrLt : List Char → List Char → Bool
  | [], [] => false
  | [], _ :: _ => true
  | _ :: _, [] => false
  | a :: as, b :: bs => if a = b then pyStrLt as bs else decide (a < b)

/-- One component of the 5-tuples built inside `Version.__lt__`
(`(major, minor, patch, *pre)` where a missing `pre` is replaced by
`(Maximum(), Maximum())`). -/
inductive TupElem
  | maximum
  | str (s : String)
  | int (n : Nat)
deriving DecidableEq, Repr

/-- Python `==` on tuple components as it evaluates in `Version.__lt__`.
Neither `Maximum` nor `VersionChange` defines `__eq__`, so comparing a
`Maximum` instance with anything falls back to object identity; the two
`Maximum()` instances in `self_pre`/`other_pre` are freshly constructed,
hence never identical. Strings and ints compare by value. -/
def tupElem_eq : TupElem → TupElem → Bool
  | .str a, .str b => a == b
  | .int a, .int b => a == b
  | _, _ => false

/-- Python `<` on tuple components as it evaluates in `Version.__lt__`.
`Maximum.__lt__` (lines 158 to 163) returns `False` against another
`Maximum` and `True` against anything else; in the reflected direction
`str.__lt__`/`int.__lt__` return `NotImplemented` against `Maximum`, and
`functools.total_ordering` derives `Maximum.__gt__ = not (lt or eq)`,
which is `False`. An `int`-versus-`str` comparison would raise, but the
tuples agree componentwise in kind whenever position 5 is reached. -/
def tupElem_lt : TupElem → TupElem → Bool
  | .maximum, .maximum => false
  | .maximum, _ => true
  | .str a, .str b => pyStrLt a.data b.data
  | .int a, .int b => decide (a < b)
  | _, _ => false

/-- Python tuple `<`: scan for the first componentwise-unequal position
and compare there; a strict prefix is smaller. -/
def tuple_lt : List TupElem → List TupElem → Bool
  | [], [] => false
  | [], _ :: _ => true
  | _ :: _, [] => false
  | a :: as, b :: bs => if tupElem_eq a b then tuple_lt as bs else tupElem_lt a b

/-- The tuple `(self.major, self.minor, self.patch, *self_pre)` built in
`Version.__lt__`, where `self_pre = self.pre or (Maximum(), Maximum())`. -/
def version_cmp_data (v : Version) : List TupElem :=
  match v.pre with
  | some (tag, count) => [.int v.major, .int v.minor, .int v.patch, .str tag, .int count]
  | none => [.int v.major, .int v.minor, .int v.patch, .maximum, .maximum]

/-- `Version.__lt__` (lines 227 to 234): compare the two 5-tuples. -/
def version_lt (a b : Version) : Bool :=
  tuple_lt (version_cmp_data a) (version_cmp_data b)

/-- `Version.as_string(flavor="semver")` (lines 197 to 205), the only
flavor exercised by the claims (it also underlies `__str__`): render
`major.minor.patch`, append `-tag.count` when `self.pre` is set, append
`+metadata` when `self.metadata` is truthy (so an empty metadata string,
being falsy in Python, is not appended). -/
def as_string (v : Version) : String :=
  let semver := toString v.major ++ "." ++ toString v.minor ++ "." ++ toString v.patch
  let semver :=
    match v.pre with
    | some (tag, count) => semver ++ "-" ++ tag ++ "." ++ toString count
    | none => semver
  match v.metadata with
  | some m => if m.data.isEmpty then semver else semver ++ "+" ++ m
  | none => semver

/-!
The regular expression `version_re` (lines 166 to 172):

  `^(?P<major>[\d]+)\.(?P<minor>[\d]+)\.(?P<patch>[\d]+)`
  `(?:-(?P<pre_tag>.*)\.(?P<pre_count>[\d]+))?(?:\+(?P<metadata>.*))?$`

The functions below implement `version_re.match` for this one pattern,
reproducing Python `re` semantics: `.` does not match a newline, `$`
matches at the end of the string or just before a newline that ends the
string, optional groups and `.*`/`[\d]+` are greedy with backtracking
(so `pre_tag` extends to the rightmost viable dot). `[\d]` is modelled
as an ASCII digit; no claim involves non-ASCII digit characters.
-/

/-- Match `(?P<metadata>.*)$` against the text after a `+`: a maximal
newline-free run, which must reach the end of the string or be followed
only by a single final newline. -/
def re_meta_match (m : List Char) : Option (List Char) :=
  let meta := m.takeWhile (fun c => !(c = '\n'))
  match m.dropWhile (fun c => !(c = '\n')) with
  | [] => some meta
  | ['\n'] => some meta
  | _ => none

/-- Match `(?P<pre_count>[\d]+)(?:\+(?P<metadata>.*))?$` against the text
after a candidate prerelease dot: a nonempty maximal digit run, then
either the end (possibly via a single final newline) or `+` and the
metadata group. Returns the count digits and the optional metadata. -/
def re_tail_match (u : List Char) : Option (List Char × Option (List Char)) :=
  let k := u.takeWhile Char.isDigit
  if k.isEmpty then none
  else
    match u.dropWhile Char.isDigit with
    | [] => some (k, none)
    | ['\n'] => some (k, none)
    | '+' :: m =>
      match re_meta_match m with
      | some meta => some (k, some meta)
      | none => none
    | _ => none

/-- Match `(?P<pre_tag>.*)\.(?P<pre_count>[\d]+)(?:\+...)?$` against the
text after the `-`: because `.*` is greedy, the engine splits at the
rightmost dot whose tail matches `re_tail_match`, and the tag (matched
by `.*`) cannot contain a newline. Returns `(tag, count, metadata)`. -/
def pre_split : List Char → Option (List Char × List Char × Option (List Char))
  | [] => none
  | c :: cs =>
    if c = '\n' then none
    else
      match pre_split cs with
      | some (tag, k, m) => some (c :: tag, k, m)
      | none =>
        if c = '.' then
          match re_tail_match cs with
          | some (k, m) => some ([], k, m)
          | none => none
        else none

/-- The named groups of a successful `version_re.match`. A group holds
`none` when it did not participate in the match; a matched-but-empty
group holds `some []`. -/
structure ReGroups where
  major : List Char
  minor : List Char
  patch : List Char
  pre_tag : Option (List Char)
  pre_count : Option (List Char)
  metadata : Option (List Char)
deriving DecidableEq, Repr

/-- `version_re.match(value)`: three dot-separated nonempty digit runs,
then the optional prerelease group, then the optional metadata group,
then the end of the string (a single trailing newline is tolerated by
`$`). -/
def version_re_match (value : String) : Option ReGroups :=
  let cs := value.data
  let d1 := cs.takeWhile Char.isDigit
  if d1.isEmpty then none
  else
    match cs.dropWhile Char.isDigit with
    | '.' :: r1 =>
      let d2 := r1.takeWhile Char.isDigit
      if d2.isEmpty then none
      else
        match r1.dropWhile Char.isDigit with
        | '.' :: r2 =>
          let d3 := r2.takeWhile Char.isDigit
          if d3.isEmpty then none
          else
            match r2.dropWhile Char.isDigit with
            | [] => some ⟨d1, d2, d3, none, none, none⟩
            | ['\n'] => some ⟨d1, d2, d3, none, none, none⟩
            | '+' :: m =>
              match re_meta_match m with
              | some meta => some ⟨d1, d2, d3, none, none, some meta⟩
              | none => none
            | '-' :: t =>
              match pre_split t with
              | some (tag, k, meta) => some ⟨d1, d2, d3, some tag, some k, meta⟩
              | none => none
            | _ => none
        | _ => none
    | _ => none

/-- Python `int()` on a nonempty ASCII digit string. -/
def int_of_digits (ds : List Char) : Nat :=
  ds.foldl (fun a c => a * 10 + (c.toNat - 48)) 0

/-- `Version.from_string` (lines 243 to 256). When the regex does not
match, `raise ValueError(value)`. Otherwise the local `pre` is assigned
only inside `if pre_tag and pre_count:`; an empty `pre_tag` is falsy, a
missing group is `None`, and in both cases the later read of `pre` in
`cls(..., pre=pre, ...)` raises `UnboundLocalError`. The matched
`pre_count` is a nonempty digit run, hence always truthy. -/
def from_string (value : String) : Except PyError Version :=
  match version_re_match value with
  | none => .error .valueError
  | some g =>
    match g.pre_tag, g.pre_count with
    | some tag, some cnt =>
      if tag.isEmpty then .error .unboundLocal
      else
        .ok
          { major := int_of_digits g.major
            minor := int_of_digits g.minor
            patch := int_of_digits g.patch
            pre := some (String.mk tag, int_of_digits cnt)
            metadata := g.metadata.map String.mk }
    | _, _ => .error .unboundLocal

/-- The `VersionChange` values (lines 112 to 152): an enumeration over
none, patch, minor, major. The class carries ordering via `__int__` and
`functools.total_ordering`; it defines no `__eq__`. -/
inductive VersionChange
  | none
  | patch
  | minor
  | major
deriving DecidableEq, Repr

/-- `VersionChange.__int__` (lines 123 to 137). -/
def VersionChange.toInt : VersionChange → Nat
  | .major => 3
  | .minor => 2
  | .patch => 1
  | .none => 0

/-- `VersionChange.__lt__` (lines 145 to 152): compare the `__int__`
images. -/
def vc_lt (a b : VersionChange) : Bool :=
  decide (a.toInt < b.toInt)

/-- The `version_tags` dict (lines 273 to 284), in its insertion order;
`get_version_change_from_message` iterates `version_tags.items()` in
exactly this order and keeps the first matching prefix. -/
def version_tags : List (String × VersionChange) :=
  [("build:", .patch),
   ("chore:", .patch),
   ("ci:", .patch),
   ("docs:", .patch),
   ("feat:", .minor),
   ("fix:", .patch),
   ("perf:", .patch),
   ("style:", .patch),
   ("refactor:", .minor),
   ("test:", .patch)]

/-- Python `str.startswith`, on character lists. -/
def py_startswith : List Char → List Char → Bool
  | [], _ => true
  | _ :: _, [] => false
  | p :: ps, c :: cs => p == c && py_startswith ps cs

/-- The whitespace characters stripped by Python `str.strip()` (ASCII
whitespace plus the information separators, NEL and NBSP; the remaining
Unicode space code points never occur in the claims). -/
def py_isspace (c : Char) : Bool :=
  c = ' ' || c = '\t' || c = '\n' || c = '\r' || c = '\x0b' || c = '\x0c' ||
  c = '\x1c' || c = '\x1d' || c = '\x1e' || c = '\x1f' || c = '\x85' || c = '\xa0'

/-- Python `str.strip()`: drop whitespace from both ends. -/
def py_strip (cs : List Char) : List Char :=
  ((cs.dropWhile py_isspace).reverse.dropWhile py_isspace).reverse

/-- The line-boundary characters of Python `str.splitlines()` other than
the two-character boundary `\r\n`. -/
def py_isLineBreak (c : Char) : Bool :=
  c = '\n' || c = '\r' || c = '\x0b' || c = '\x0c' ||
  c = '\x1c' || c = '\x1d' || c = '\x1e' || c = '\x85' ||
  c = '\u2028' || c = '\u2029'

/-- Worker for `py_splitlines`: `cur` is the current line, reversed. A
boundary ends the current line, and a boundary that ends the string
produces no further (empty) line. -/
def splitlines_go : List Char → List Char → List (List Char)
  | [], cur => [cur.reverse]
  | '\r' :: '\n' :: rest, cur =>
    cur.reverse :: (if rest.isEmpty then [] else splitlines_go rest [])
  | c :: rest, cur =>
    if py_isLineBreak c then
      cur.reverse :: (if rest.isEmpty then [] else splitlines_go rest [])
    else splitlines_go rest (c :: cur)

/-- Python `str.splitlines()`: the empty string yields no lines; line
boundaries are terminators, so a trailing boundary adds no empty line. -/
def py_splitlines (cs : List Char) : List (List Char) :=
  if cs.isEmpty then [] else splitlines_go cs []

/-- `get_version_change_from_message` (lines 287 to 314): strip and
split the message; an empty line list yields none; the first line is
matched against the `version_tags` prefixes (first match wins, otherwise
none is returned immediately, without scanning the remaining lines);
when a prefix matched, any later line starting with the literal
`BREAKING CHANGE:` upgrades the result to major. -/
def get_version_change_from_message (message : String) : VersionChange :=
  match py_splitlines (py_strip message.data) with
  | [] => .none
  | header :: rest =>
    match (version_tags.find? (fun p => py_startswith p.1.data header)).map (fun p => p.2) with
    | Option.none => .none
    | some change =>
      if rest.any (fun line => py_startswith "BREAKING CHANGE:".data line) then .major
      else change

/-- `get_version_change_from_diff` (lines 259 to 270): the coarsest
differing component, checked major first. -/
def get_version_change_from_diff (a b : Version) : VersionChange :=
  if a.major ≠ b.major then .major
  else if a.minor ≠ b.minor then .minor
  else if a.patch ≠ b.patch then .patch
  else .none

/-- `parse_versions` (lines 317 to 333): keep tags starting with "v",
parse the remainder with `Version.from_string`, and skip a tag only when
the parse raises `packaging.version.InvalidVersion`. The hand-rolled
`from_string` never raises that class (it raises `ValueError` itself for
an unmatched pattern and `UnboundLocalError` for a missing prerelease),
so the `except` clause never fires and every parse error propagates. -/
def parse_versions : List String → Except PyError (List Version)
  | [] => .ok []
  | tag :: rest =>
    if py_startswith "v".data tag.data then
      match from_string (String.mk (tag.data.drop 1)) with
      | .ok v =>
        match parse_versions rest with
        | .ok vs => .ok (v :: vs)
        | .error e => .error e
      | .error e => .error e
    else parse_versions rest

/-- Stable insertion of `x` into an ascending list, driven by
`Version.__lt__` exactly as Python list sorting is: `x` is placed before
the first element `y` with `not (y < x)`, so elements the comparison
cannot separate keep their original relative order. -/
def py_insert (x : Version) : List Version → List Version
  | [] => [x]
  | y :: ys => if version_lt y x then y :: py_insert x ys else x :: y :: ys

/-- Python `sorted(versions)`: a stable ascending sort using `__lt__`;
for the comparator arising here a stable insertion sort computes the
same list. -/
def py_sorted (l : List Version) : List Version :=
  l.foldr py_insert []

/-- Python `sorted(versions, reverse=True)`, which CPython implements by
reversing, sorting ascending (stably) and reversing again. -/
def py_sorted_rev (l : List Version) : List Version :=
  (py_sorted l.reverse).reverse

/-- `get_repo_data` (lines 336 to 346) with the repository tag list as
input: the largest parsed version, defaulting to
`Version.from_string("0.0.0")` when no tag survives parsing. -/
def get_repo_data (tags : List String) : Except PyError Version :=
  match parse_versions tags with
  | .error e => .error e
  | .ok versions =>
    match py_sorted_rev versions with
    | v :: _ => .ok v
    | [] => from_string "0.0.0"

/-- The `Commit` dataclass (lines 26 to 30). -/
structure Commit where
  hash : String
  message : String
  tags : List String
deriving DecidableEq, Repr

/-- Loop body of `get_ancestral_data` (lines 349 to 363) over the
commits yielded by `get_commits()`: parse the tags of each commit, walk
the sorted versions and return the first one whose `pre` is falsy (a
missing prerelease) together with the change accumulated so far;
otherwise fold the commit message into the running maximum (the update
`if current_change > change` replaces the object whenever the values tie
because `__gt__`, derived by total_ordering from `__lt__` and identity
`__eq__`, is true there; the resulting value is the maximum either way).
When history is exhausted, return `Version.from_string("0.0.0")`. -/
def get_ancestral_data_go : List Commit → VersionChange → Except PyError (Version × VersionChange)
  | [], change =>
    match from_string "0.0.0" with
    | .ok v => .ok (v, change)
    | .error e => .error e
  | commit :: rest, change =>
    match parse_versions commit.tags with
    | .error e => .error e
    | .ok versions =>
      match (py_sorted versions).find? (fun v => v.pre.isNone) with
      | some v => .ok (v, change)
      | Option.none =>
        let current_change := get_version_change_from_message commit.message
        get_ancestral_data_go rest (if vc_lt change current_change then current_change else change)

/-- `get_ancestral_data` with the commit sequence (HEAD first) as input;
the accumulator starts at `VersionChange("none")`. -/
def get_ancestral_data (commits : List Commit) : Except PyError (Version × VersionChange) :=
  get_ancestral_data_go commits .none

/-- `bump_version` (lines 366 to 384). Its first statement is
`new_version = Version.clone()`: the class `Version` defines no
attribute `clone`, so every call raises `AttributeError` before either
argument is consulted. (The lines after it would also fault: `major += 1`
reads an unbound local, and `Version(f"...")` passes one positional
argument where `major`, `minor` and `patch` are required.) -/
def bump_version (_version : Version) (_version_change : VersionChange) : Except PyError Version :=
  .error .attributeError

/-- `bump_prerelease` (lines 387 to 398). Its first statement unpacks
`version.release`; the hand-rolled `Version` defines no attribute
`release`, so every call raises `AttributeError`. -/
def bump_prerelease (_version : Version) (_prerelease : String) : Except PyError Version :=
  .error .attributeError

/-- The `VersionRule` dataclass (lines 84 to 88). -/
structure VersionRule where
  branch : String
  prerelease_token : Option String := none
  add_build_metadata : Bool := false
deriving DecidableEq, Repr

/-- The built-in `version_rules` list (lines 91 to 95). -/
def version_rules : List VersionRule :=
  [{ branch := "main" },
   { branch := "dev", prerelease_token := some "rc" },
   { branch := ".*", prerelease_token := some "alpha", add_build_metadata := true }]

/-- `re.match(pattern, branch)` reduced to a boolean, specialised to the
three patterns occurring in `version_rules`: "main" and "dev" contain no
regex metacharacters, so an anchored-at-start match succeeds exactly on
strings having them as a prefix, while ".*" matches every string
(including the empty string) at the start. -/
def re_match_start (pattern : String) (s : String) : Bool :=
  if pattern = ".*" then true else py_startswith pattern.data s.data

/-- `determine_version_rule` (lines 98 to 109): the first rule whose
branch pattern matches, else `None`. -/
def determine_version_rule (branch : String) : Option VersionRule :=
  version_rules.find? (fun rule => re_match_start rule.branch branch)

/-- Worker for `py_replace`, with fuel bounded by the length of the
subject (each step consumes at least one character when the pattern is
nonempty, so `s.length` fuel is never exhausted). -/
def py_replace_go : Nat → List Char → List Char → List Char → List Char
  | 0, s, _, _ => s
  | _ + 1, [], _, _ => []
  | fuel + 1, c :: rest, pat, rep =>
    if !pat.isEmpty && py_startswith pat (c :: rest) then
      rep ++ py_replace_go fuel ((c :: rest).drop pat.length) pat rep
    else c :: py_replace_go fuel rest pat rep

/-- Python `str.replace(pat, rep)`: literal (non-regex) replacement of
every non-overlapping occurrence, scanning left to right. (Python treats
an empty pattern specially; the one call site passes a fixed 15-character
literal, so that case never arises.) -/
def py_replace (s pat rep : String) : String :=
  String.mk (py_replace_go s.data.length s.data pat.data rep.data)

/-- The build-metadata expression of `get_next_version` (line 454):
`branch.replace("[^a-zA-Z0-9]+", ".")`. `str.replace` replaces the
literal substring `[^a-zA-Z0-9]+`; it does not interpret it as a regular
expression. -/
def build_metadata_of (branch : String) : String :=
  py_replace branch "[^a-zA-Z0-9]+" "."

/-- The comparison `change == "none"` of `get_next_version` (line 432):
a `VersionChange` instance is compared with the str `"none"`. Neither
side accepts the other (`VersionChange` has no `__eq__`; functools'
total_ordering adds only the order operators), so Python falls back to
object identity and the comparison is always False. -/
def versionChange_eq_str (_change : VersionChange) (_s : String) : Bool :=
  false

/-- `get_next_version` (lines 408 to 458) as a function of the data the
git collaborators provide: the current branch name, the repository tag
list, and the commit walk from HEAD. Mirrors the source statement by
statement; the attribute reads `repo_version.is_prerelease` and
`repo_version.base_version` on the stable track raise `AttributeError`
because the hand-rolled `Version` defines neither, and the metadata step
`Version(f"{version}+{build_metadata}")` raises `TypeError` (single
positional argument). -/
def get_next_version (branch : String) (tags : List String) (commits : List Commit) : Except PyError String :=
  match determine_version_rule branch with
  | Option.none => .error .valueError
  | some rule =>
    match get_repo_data tags with
    | .error e => .error e
    | .ok repo_version =>
      match get_ancestral_data commits with
      | .error e => .error e
      | .ok (ancestor_release, change) =>
        if versionChange_eq_str change "none" then
          .ok (as_string ancestor_release)
        else
          let drift := get_version_change_from_diff repo_version ancestor_release
          let step1 : Except PyError Version :=
            match rule.prerelease_token with
            | some tok =>
              match (if vc_lt drift change then bump_version repo_version change else .ok repo_version) with
              | .error e => .error e
              | .ok version => bump_prerelease version tok
            | Option.none => .error .attributeError
          match step1 with
          | .error e => .error e
          | .ok version =>
            if rule.add_build_metadata then
              let _build_metadata := build_metadata_of branch
              .error .typeError
            else .ok (as_string version)

/-!
Theorems settling the claims. All versions below are written with the
anonymous constructor `⟨major, minor, patch, pre, metadata⟩`.
-/

deriving instance DecidableEq for Except

/-- C1: the claim states the total order of the spec, in particular that
a version with no prerelease compares strictly greater than a prerelease
of the same release triple (`1.2.3 > 1.2.3-rc.1`). The code computes the
opposite: `Maximum.__lt__` answers True against every non-`Maximum`
value, so the sentinel substituted for a missing prerelease behaves as a
minimum and `1.2.3 < 1.2.3-rc.1`. The remaining parts of the claimed
order do hold in the code: the release triples compare lexicographically
(`1.2.2 < 1.2.3-rc.1`), prerelease pairs compare lexicographically
(`1.0.0-alpha.1 < 1.0.0-alpha.2`), and build metadata never influences
the comparison (`1.0.0+a` and `1.0.0+b` are mutually not less). -/
theorem C1_release_sorts_below_its_prerelease :
  version_lt ⟨1, 2, 3, none, none⟩ ⟨1, 2, 3, some ("rc", 1), none⟩ = true
  ∧ version_lt ⟨1, 2, 3, some ("rc", 1), none⟩ ⟨1, 2, 3, none, none⟩ = false
  ∧ version_lt ⟨1, 2, 2, none, none⟩ ⟨1, 2, 3, some ("rc", 1), none⟩ = true
  ∧ version_lt ⟨1, 0, 0, some ("alpha", 1), none⟩ ⟨1, 0, 0, some ("alpha", 2), none⟩ = true
  ∧ version_lt ⟨1, 0, 0, some ("alpha", 2), none⟩ ⟨1, 0, 0, some ("alpha", 1), none⟩ = false
  ∧ version_lt ⟨1, 0, 0, none, some "a"⟩ ⟨1, 0, 0, none, some "b"⟩ = false
  ∧ version_lt ⟨1, 0, 0, none, some "b"⟩ ⟨1, 0, 0, none, some "a"⟩ = false := by
  decide

/-- C2: the claim states that parsing the semver rendering of every
valid Version returns that Version. Evaluating the code: the rendering
of `1.2.3` is the string "1.2.3", and `from_string` on it raises
`UnboundLocalError` (the local `pre` is assigned only when a prerelease
group matched), so the round trip fails for every prerelease-free
version. A version with a prerelease does round-trip; but even there
the claim is not salvageable in general, because greedy matching of
`pre_tag` mis-splits metadata that ends in a dotted number: the
rendering of `1.0.0` with prerelease `("a", 1)` and metadata `"b.2"`
parses back with prerelease `("a.1+b", 2)` and no metadata. -/
theorem C2_roundtrip_fails_on_prerelease_free_versions :
  as_string ⟨1, 2, 3, none, none⟩ = "1.2.3"
  ∧ from_string (as_string ⟨1, 2, 3, none, none⟩) = .error .unboundLocal
  ∧ from_string (as_string ⟨1, 2, 3, some ("rc", 1), none⟩) = .ok ⟨1, 2, 3, some ("rc", 1), none⟩
  ∧ from_string (as_string ⟨1, 0, 0, some ("a", 1), some "b.2"⟩)
      = .ok ⟨1, 0, 0, some ("a.1+b", 2), none⟩
  ∧ (⟨1, 0, 0, some ("a.1+b", 2), none⟩ : Version) ≠ ⟨1, 0, 0, some ("a", 1), some "b.2"⟩ := by
  decide

/-- C3: the claim states that `from_string` accepts every
`MAJOR.MINOR.PATCH[-TAG.COUNT][+METADATA]` string, including plain
"1.2.3", and fails in a controlled way exactly on a pattern mismatch or
a prerelease suffix missing tag or counter. Evaluating the code: every
input without a prerelease suffix ("1.2.3", and likewise the default
"0.0.0") raises `UnboundLocalError` because the local `pre` is assigned
only under `if pre_tag and pre_count`; inputs with a full prerelease
suffix are accepted; a pattern mismatch raises `ValueError`; a
prerelease suffix with an empty tag matches the regex with a falsy
`pre_tag` group and again raises `UnboundLocalError` instead of a
`MalformedVersion`-style error. -/
theorem C3_from_string_rejects_prerelease_free_input :
  from_string "1.2.3" = .error .unboundLocal
  ∧ from_string "0.0.0" = .error .unboundLocal
  ∧ from_string "1.2.3-rc.1" = .ok ⟨1, 2, 3, some ("rc", 1), none⟩
  ∧ from_string "1.2.3-rc.1+meta" = .ok ⟨1, 2, 3, some ("rc", 1), some "meta"⟩
  ∧ from_string "garbage" = .error .valueError
  ∧ from_string "1.2" = .error .valueError
  ∧ from_string "1.2.3-rc" = .error .valueError
  ∧ from_string "1.2.3-.1" = .error .unboundLocal := by
  decide

/-- C4 (counterexample): the claim says that a `BREAKING CHANGE:` line
forces the result to major even when the first line has no recognized
prefix; on the message "wip: z\nBREAKING CHANGE: oops" the code returns
none, because the function returns as soon as the header matches no
prefix in `version_tags`, before scanning for the marker. -/
theorem C4_breaking_marker_ignored_without_recognized_header :
  get_version_change_from_message "wip: z\nBREAKING CHANGE: oops" = VersionChange.none
  ∧ VersionChange.none ≠ VersionChange.major := by
  decide

/-- C4 (amended): `get_version_change_from_message` maps the first-line
prefix exactly as claimed (feat and refactor to minor; build, chore, ci,
docs, fix, perf, style and test to patch; anything else, or an empty
message, to none), and a subsequent line starting with the literal
`BREAKING CHANGE:` forces major only when the first line carried a
recognized prefix; with an unrecognized first line the result is none
even in the presence of the marker. -/
theorem C4_first_line_mapping_with_conditional_breaking_upgrade :
  (∀ p ∈ version_tags,
      get_version_change_from_message (p.1 ++ " x") = p.2
      ∧ get_version_change_from_message (p.1 ++ " x\nBREAKING CHANGE: y") = VersionChange.major)
  ∧ get_version_change_from_message "feat: add x" = VersionChange.minor
  ∧ get_version_change_from_message "fix: y" = VersionChange.patch
  ∧ get_version_change_from_message "chore: z\n\nBREAKING CHANGE: oops" = VersionChange.major
  ∧ get_version_change_from_message "unrecognized header" = VersionChange.none
  ∧ get_version_change_from_message "" = VersionChange.none := by
  decide

/-- C4 (witness for the amended theorem): instantiating the quantified
part at the `feat:` entry of `version_tags`. -/
theorem C4_first_line_mapping_with_conditional_breaking_upgrade_witness :
  get_version_change_from_message ("feat:" ++ " x") = VersionChange.minor :=
  (C4_first_line_mapping_with_conditional_breaking_upgrade.1
    ("feat:", VersionChange.minor) (by decide)).1

/-- C5: the claim says that with an accumulated change of none the next
version equals `ancestor_release` unchanged, e.g. tags `[v1.0.0]` with
every later commit classifying as none on branch main yields "1.0.0".
Evaluating the code on exactly that input: the tag walk raises
`UnboundLocalError` while parsing "v1.0.0" (a prerelease-free version),
so no string is returned at all. Independently, the short-circuit
itself is dead code: `change == "none"` compares a `VersionChange`
instance with a str by identity and is always False, and the paths that
follow raise `AttributeError`. -/
theorem C5_no_change_path_raises_instead_of_returning_ancestor :
  get_version_change_from_message "unrecognized message" = VersionChange.none
  ∧ get_next_version "main" ["v1.0.0"] [⟨"h1", "unrecognized message", []⟩]
      = .error .unboundLocal
  ∧ versionChange_eq_str VersionChange.none "none" = false := by
  decide

/-- C6: the claim describes the numeric effect of `bump_version` for
patch, minor and major changes. The code never gets that far: its first
statement evaluates `Version.clone()`, an attribute the class does not
define, so every call raises `AttributeError` regardless of the
arguments. -/
theorem C6_bump_version_always_raises :
  ∀ (v : Version) (c : VersionChange), bump_version v c = .error .attributeError :=
  fun _ _ => rfl

/-- C7: the claim says tags that do not start with "v" or whose
remainder does not parse are silently skipped, with a 0.0.0 default.
Evaluating the code: the two example tags of the claim (no "v" prefix)
are indeed skipped; but a v-prefixed unparseable tag raises an uncaught
`ValueError` (the except clause catches only
`packaging.version.InvalidVersion`, which the hand-rolled `from_string`
never raises), a v-prefixed release tag raises `UnboundLocalError`, and
the 0.0.0 default itself raises `UnboundLocalError`. -/
theorem C7_unparseable_v_tags_raise :
  parse_versions ["not-a-version", "1.0.0"] = .ok []
  ∧ parse_versions ["vnot-a-version"] = .error .valueError
  ∧ parse_versions ["v1.0.0"] = .error .unboundLocal
  ∧ get_repo_data [] = .error .unboundLocal := by
  decide

/-- C8: the claim says the walk returns at the first commit tagged with
a non-prerelease version, and 0.0.0 with the accumulated change when
history is exhausted. Evaluating the code: a commit tagged "v1.0.0"
makes `parse_versions` raise `UnboundLocalError` (non-prerelease tags
cannot be parsed at all), an exhausted history raises the same error
from `Version.from_string("0.0.0")`, and a history of prerelease-tagged
commits also ends in that error; no input returns normally. -/
theorem C8_ancestral_walk_raises :
  get_ancestral_data [⟨"h1", "", ["v1.0.0"]⟩] = .error .unboundLocal
  ∧ get_ancestral_data [] = .error .unboundLocal
  ∧ get_ancestral_data [⟨"h1", "feat: x", ["v1.0.0-rc.1"]⟩] = .error .unboundLocal := by
  decide

/-- C9: the claim says the appended metadata is the branch name with
every non-alphanumeric run collapsed to a dot, so branch "feature/x-y"
yields "feature.x.y". The code calls `str.replace`, which substitutes
the literal substring `[^a-zA-Z0-9]+` and never interprets it as a
regular expression: the branch comes back unchanged (while a branch that
literally contains that text does get it replaced, confirming the
literal semantics). -/
theorem C9_build_metadata_replacement_is_literal :
  build_metadata_of "feature/x-y" = "feature/x-y"
  ∧ ("feature/x-y" : String) ≠ "feature.x.y"
  ∧ build_metadata_of "a[^a-zA-Z0-9]+b" = "a.b" := by
  decide

/-- C10: with the built-in rule list, `determine_version_rule` returns a
rule for every branch-name string, because the final catch-all pattern
".*" matches any string at the start; the no-matching-rule failure in
`get_next_version` is therefore unreachable under the default rules. -/
theorem C10_default_rules_match_every_branch :
  ∀ (branch : String), (determine_version_rule branch).isSome = true := by
  intro branch
  unfold determine_version_rule version_rules
  simp only [List.find?]
  have h3 : re_match_start ".*" branch = true := rfl
  rw [h3]
  generalize re_match_start "main" branch = b1
  generalize re_match_start "dev" branch = b2
  cases b1 <;> cases b2 <;> rfl
